import Mathlib

/-!
Verification of the QuickServe deployment orchestrator.

This file gives a shallow embedding of the two components of the repository
that carry decision logic:

* src/deploy/deploy.sh — the deployment-and-rollback orchestrator, embedded
  as a function from an oracle of external-call results (a `World`) and the
  orchestration platform's state to a run result; and
* src/healthcheck.js — the container health-check client, embedded as a
  function from the HTTP outcome to the process exit code.

The script runs under `set -e`: a failing external command that is not in an
`if` condition aborts the whole run with a nonzero code.  The embedding makes
every such abort an explicit branch.  All nonzero process exit codes are
collapsed to 1; only zero versus nonzero is observable to the claims.
-/

namespace QuickServe

/-- One `aws ecs update-service` call recorded against the platform: the
revision passed as the task definition, and whether the call was issued from
the rollback routine.  deploy.sh has exactly two update-service call sites:
the forward one in `update_service` and the one inside `rollback`. -/
structure UpdateCall where
  revision : String
  viaRollback : Bool
deriving DecidableEq

/-- Observable state of the orchestration platform for the one service the
script manages: the revision the service currently points at, the revisions
registered so far, and the log of update-service calls received. -/
structure PlatformState where
  liveRevision : String
  registeredRevisions : List String
  updateCalls : List UpdateCall
deriving DecidableEq

/-- Oracle for one run of deploy.sh: the result of each external CLI call the
script makes, in program order.

* `describeOutput` is the text printed by the `describe-services` query
  (deploy.sh treats both the empty string and the literal `None` as "no
  existing task definition").
* `registerResult = none` folds together every failure inside
  `register_task_definition` that aborts the run before any mutation: the
  ECR registry lookup failing, the `register-task-definition` call failing
  (both fatal under `set -e`), and the explicit empty-output check.
* `firstWaitStable` and `rollbackWaitStable` are the results of the two
  possible `wait_for_stable_service` invocations (the wait after the forward
  update, and the wait inside `rollback`).
* `healthStatusOf` gives the `healthStatus` string that `describe-tasks`
  reports for each running task ARN. -/
structure World where
  awsCliFound : Bool
  credentialsOk : Bool
  taskDefFileExists : Bool
  describeServicesOk : Bool
  describeOutput : String
  registerResult : Option String
  updateServiceOk : Bool
  firstWaitStable : Bool
  rollbackUpdateOk : Bool
  rollbackWaitStable : Bool
  taskArns : List String
  healthStatusOf : String → String

/-- `validate_prerequisites` from deploy.sh: AWS CLI present, credentials
valid, task-definition template file present.  Any failure exits 1 before
anything else runs. -/
def validate_prerequisites (w : World) : Bool :=
  w.awsCliFound && w.credentialsOk && w.taskDefFileExists

/-- `get_current_task_definition` from deploy.sh: the CURRENT_TASK_DEF
variable is set to empty when the query prints nothing or the literal
`None`, and to the printed revision otherwise. -/
def get_current_task_definition (out : String) : String :=
  if out = "" ∨ out = "None" then "" else out

/-- `register_task_definition` from deploy.sh.  On success the new revision
is added to the platform's registry and its ARN is returned; every failure
mode (ECR lookup failure, registration rejection, empty ARN output) aborts
with no state change.  The live service is untouched either way. -/
def register_task_definition (w : World) (s : PlatformState) :
    Option String × PlatformState :=
  match w.registerResult with
  | none => (none, s)
  | some arn =>
      if arn = "" then (none, s)
      else (some arn, { s with registeredRevisions := s.registeredRevisions ++ [arn] })

/-- One `aws ecs update-service` call: the call is always recorded; the live
revision moves only if the platform accepts the call. -/
def updateServiceCall (accepted : Bool) (rev : String) (fromRollback : Bool)
    (s : PlatformState) : PlatformState :=
  { s with
      liveRevision := if accepted then rev else s.liveRevision
      updateCalls := s.updateCalls ++ [⟨rev, fromRollback⟩] }

/-- `update_service` from deploy.sh: the forward swap to the newly registered
revision. -/
def update_service (w : World) (newDef : String) (s : PlatformState) : PlatformState :=
  updateServiceCall w.updateServiceOk newDef false s

/-- `run_health_checks` from deploy.sh: returns failure (nonzero) exactly
when `list-tasks` reports no running tasks.  When tasks exist, the loop over
their health statuses only logs; it cannot make the function fail. -/
def run_health_checks (w : World) : Bool :=
  !w.taskArns.isEmpty

/-- The condition under which the health-check loop in deploy.sh emits its
"Task is not healthy" warning for a task: the reported status is neither
HEALTHY nor UNKNOWN. -/
def taskNotHealthyWarned (w : World) (t : String) : Bool :=
  w.healthStatusOf t != "HEALTHY" && w.healthStatusOf t != "UNKNOWN"

/-- How one invocation of `rollback` in deploy.sh ends. -/
inductive RollbackResult
  | noTarget
  | updateRejected
  | stabilized
  | failedToStabilize
deriving DecidableEq

/-- `rollback` from deploy.sh: with an empty CURRENT_TASK_DEF it logs the
"No previous task definition to rollback to" error and returns 1 without
touching the platform; otherwise it issues update-service to the saved
revision (a CLI rejection aborts the run under `set -e`) and then waits for
stabilization. -/
def rollback (w : World) (cur : String) (s : PlatformState) :
    RollbackResult × PlatformState :=
  if cur = "" then (RollbackResult.noTarget, s)
  else
    let s1 := updateServiceCall w.rollbackUpdateOk cur true s
    if !w.rollbackUpdateOk then (RollbackResult.updateRejected, s1)
    else if w.rollbackWaitStable then (RollbackResult.stabilized, s1)
    else (RollbackResult.failedToStabilize, s1)

/-- Terminal outcome of one deploy.sh run.  The first four are the outcomes
named by the design document; ABORTED_MID_MUTATION is the extra path the
script has under `set -e`: the forward update-service CLI call itself fails,
and the run dies with no rollback attempt. -/
inductive Outcome
  | SUCCEEDED
  | ROLLED_BACK
  | ROLLBACK_FAILED
  | ABORTED_BEFORE_MUTATION
  | ABORTED_MID_MUTATION
deriving DecidableEq

/-- Everything observable about one finished deploy.sh run: the outcome, the
process exit code (nonzero collapsed to 1), the final platform state, the
final value of CURRENT_TASK_DEF, how the rollback ended if one was invoked,
and the health-check result if the success path reached it. -/
structure RunResult where
  outcome : Outcome
  exitCode : Nat
  state : PlatformState
  currentTaskDef : String
  rollbackResult : Option RollbackResult
  healthChecksPassed : Option Bool
deriving DecidableEq

/-- `main` from deploy.sh: validate, read the current revision, register the
new revision, swap, wait; on wait failure roll back and exit 1; on success
run health checks (whose failure only logs a warning) and exit 0. -/
def runDeploy (w : World) (s0 : PlatformState) : RunResult :=
  if !(validate_prerequisites w) then
    ⟨Outcome.ABORTED_BEFORE_MUTATION, 1, s0, "", none, none⟩
  else if !w.describeServicesOk then
    ⟨Outcome.ABORTED_BEFORE_MUTATION, 1, s0, "", none, none⟩
  else
    let cur := get_current_task_definition w.describeOutput
    match register_task_definition w s0 with
    | (none, s1) => ⟨Outcome.ABORTED_BEFORE_MUTATION, 1, s1, cur, none, none⟩
    | (some newDef, s1) =>
      let s2 := update_service w newDef s1
      if !w.updateServiceOk then
        ⟨Outcome.ABORTED_MID_MUTATION, 1, s2, cur, none, none⟩
      else if w.firstWaitStable then
        ⟨Outcome.SUCCEEDED, 0, s2, cur, none, some (run_health_checks w)⟩
      else
        match rollback w cur s2 with
        | (RollbackResult.noTarget, s3) =>
            ⟨Outcome.ROLLBACK_FAILED, 1, s3, cur, some RollbackResult.noTarget, none⟩
        | (RollbackResult.updateRejected, s3) =>
            ⟨Outcome.ROLLBACK_FAILED, 1, s3, cur, some RollbackResult.updateRejected, none⟩
        | (RollbackResult.stabilized, s3) =>
            ⟨Outcome.ROLLED_BACK, 1, s3, cur, some RollbackResult.stabilized, none⟩
        | (RollbackResult.failedToStabilize, s3) =>
            ⟨Outcome.ROLLBACK_FAILED, 1, s3, cur, some RollbackResult.failedToStabilize, none⟩

/-! ### Embedding of src/healthcheck.js -/

/-- An HTTP response as far as healthcheck.js can observe it: the status
code, plus (for comparison against the stated endpoint contract) the value
of the `status` field of the JSON body, `none` when the body has no such
field.  healthcheck.js itself never reads the body. -/
structure HttpResponse where
  statusCode : Nat
  bodyStatusField : Option String
deriving DecidableEq

/-- Outcome of the HTTP request issued by healthcheck.js: a response, a
connection error, or the 2-second timeout. -/
inductive HttpResult
  | response (res : HttpResponse)
  | connectionError
  | timedOut
deriving DecidableEq

/-- healthcheck.js: exit 0 when the response status code is 200, exit 1 on
any other status code, on a request error, or on timeout.  The response body
is never inspected. -/
def healthcheckExit : HttpResult → Nat
  | HttpResult.response res => if res.statusCode = 200 then 0 else 1
  | HttpResult.connectionError => 1
  | HttpResult.timedOut => 1

/-- Whether the HTTP outcome is a response with status code 200. -/
def isStatus200 : HttpResult → Bool
  | HttpResult.response res => res.statusCode == 200
  | HttpResult.connectionError => false
  | HttpResult.timedOut => false

/-- The health contract as the design document states it for C9: status 200
and a JSON body whose status field equals OK.  Written from the stated
contract, for comparison with `healthcheckExit`. -/
def claimHealthyC9 : HttpResult → Bool
  | HttpResult.response res =>
      (res.statusCode == 200) && (res.bodyStatusField == some "OK")
  | HttpResult.connectionError => false
  | HttpResult.timedOut => false

/-! ### Concrete worlds used to evaluate the model -/

/-- A run in which everything succeeds and stabilizes but the single running
task reports an UNHEALTHY status. -/
def unhealthyDeployWorld : World :=
  { awsCliFound := true
    credentialsOk := true
    taskDefFileExists := true
    describeServicesOk := true
    describeOutput := "R1"
    registerResult := some "R2"
    updateServiceOk := true
    firstWaitStable := true
    rollbackUpdateOk := true
    rollbackWaitStable := true
    taskArns := ["taskA"]
    healthStatusOf := fun _ => "UNHEALTHY" }

/-- The platform before the run: the service points at R1, which is the only
registered revision, and no update calls have been received. -/
def initialState : PlatformState :=
  { liveRevision := "R1", registeredRevisions := ["R1"], updateCalls := [] }

/-- A run where the forward wait times out and the rollback's own
stabilization wait also fails. -/
def timeoutRollbackFailWorld : World :=
  { unhealthyDeployWorld with
      firstWaitStable := false
      rollbackWaitStable := false
      healthStatusOf := fun _ => "HEALTHY" }

/-- A run where the forward wait times out and the rollback succeeds. -/
def rollbackOkWorld : World :=
  { timeoutRollbackFailWorld with rollbackWaitStable := true }

/-- A first deployment (no prior revision) whose forward wait times out. -/
def firstDeployFailWorld : World :=
  { rollbackOkWorld with describeOutput := "None", registerResult := some "R2" }

/-- A run whose prerequisites fail: the task-definition template is absent. -/
def noTaskDefFileWorld : World :=
  { unhealthyDeployWorld with taskDefFileExists := false }

/-- A stabilized run after which the platform lists no running tasks. -/
def noTasksWorld : World :=
  { unhealthyDeployWorld with taskArns := [] }

/-! ### Helper lemmas -/

/-- Registering never touches the update-call log or the live revision,
whatever the registration result. -/
theorem register_task_definition_frame (w : World) (s : PlatformState) :
    (register_task_definition w s).2.updateCalls = s.updateCalls
    ∧ (register_task_definition w s).2.liveRevision = s.liveRevision := by
  unfold register_task_definition
  cases w.registerResult with
  | none => simp
  | some arn => by_cases ha : arn = "" <;> simp [ha]

/-- A failed registration leaves the platform state exactly as it was. -/
theorem register_task_definition_fst_none (w : World) (s : PlatformState)
    (h : (register_task_definition w s).1 = none) :
    register_task_definition w s = (none, s) := by
  unfold register_task_definition at h ⊢
  cases hr : w.registerResult with
  | none => simp
  | some arn =>
      rw [hr] at h
      by_cases ha : arn = ""
      · simp [ha]
      · simp [ha] at h

/-- Rollback with an empty saved revision returns the no-target failure and
leaves the state untouched. -/
theorem rollback_empty_target (w : World) (s : PlatformState) :
    rollback w "" s = (RollbackResult.noTarget, s) := by
  simp [rollback]

/-- Rollback ends in the no-target failure exactly when the saved revision
is empty. -/
theorem rollback_noTarget_iff (w : World) (cur : String) (s : PlatformState) :
    (rollback w cur s).1 = RollbackResult.noTarget ↔ cur = "" := by
  unfold rollback
  by_cases hc : cur = ""
  · simp [hc]
  · by_cases hr : w.rollbackUpdateOk <;> by_cases hw : w.rollbackWaitStable <;>
      simp [hc, hr, hw]

/-- With a non-empty saved revision, rollback records exactly one
update-service call, tagged as issued from rollback and carrying that
revision. -/
theorem rollback_calls (w : World) (cur : String) (s : PlatformState)
    (hc : cur ≠ "") :
    (rollback w cur s).2.updateCalls = s.updateCalls ++ [⟨cur, true⟩] := by
  unfold rollback updateServiceCall
  by_cases hr : w.rollbackUpdateOk <;> by_cases hw : w.rollbackWaitStable <;>
    simp [hc, hr, hw]

/-! ### Claim theorems -/

/-- C1: the design requires that after the service stabilizes, an UNHEALTHY
instance verdict (or a smoke-test failure) transitions the run to
ROLLING_BACK, and only an all-clear yields SUCCEEDED.  deploy.sh does not do
this: with a stabilized service whose single running task reports UNHEALTHY,
the run still ends SUCCEEDED with exit code 0, no rollback is invoked and no
rollback-tagged update call is issued — the unhealthy verdict only produces
the "Task is not healthy" warning.  (deploy.sh never invokes the smoke-test
suite at all.) -/
theorem c1_unhealthy_instance_still_succeeds :
    (runDeploy unhealthyDeployWorld initialState).outcome = Outcome.SUCCEEDED
    ∧ (runDeploy unhealthyDeployWorld initialState).exitCode = 0
    ∧ (runDeploy unhealthyDeployWorld initialState).rollbackResult = none
    ∧ ((runDeploy unhealthyDeployWorld initialState).state.updateCalls.filter
        (fun c => c.viaRollback)) = []
    ∧ taskNotHealthyWarned unhealthyDeployWorld "taskA" = true := by
  decide

/-- C2 (as stated) is refuted: with R1 captured, R2 registered, the update
accepted and the first stabilization wait timing out, the outcome is not
always ROLLED_BACK — when the rollback's own stabilization wait also fails,
the run ends ROLLBACK_FAILED. -/
theorem c2_counterexample_rollback_wait_fails :
    (runDeploy timeoutRollbackFailWorld initialState).outcome
        = Outcome.ROLLBACK_FAILED
    ∧ (runDeploy timeoutRollbackFailWorld initialState).outcome
        ≠ Outcome.ROLLED_BACK := by
  decide

/-- C2 (amended): with a previous revision R1 captured, a new revision R2
registered, the forward update accepted and the first stabilization wait
timing out, if the rollback's own update call is accepted and its
stabilization wait succeeds, then the outcome is ROLLED_BACK and the final
live revision equals R1. -/
theorem c2_stable_timeout_rolls_back_to_previous (w : World) (s0 : PlatformState)
    (r1 r2 : String)
    (hval : validate_prerequisites w = true)
    (hdesc : w.describeServicesOk = true)
    (hout : w.describeOutput = r1)
    (h1 : r1 ≠ "") (h1n : r1 ≠ "None")
    (hreg : w.registerResult = some r2) (h2 : r2 ≠ "")
    (hupd : w.updateServiceOk = true)
    (hwait : w.firstWaitStable = false)
    (hrup : w.rollbackUpdateOk = true)
    (hrwait : w.rollbackWaitStable = true) :
    (runDeploy w s0).outcome = Outcome.ROLLED_BACK
    ∧ (runDeploy w s0).state.liveRevision = r1 := by
  simp [runDeploy, hval, hdesc, hout, hreg, hupd, hwait, hrup, hrwait,
        register_task_definition, get_current_task_definition, rollback,
        update_service, updateServiceCall, h1, h1n, h2]

/-- C2 witness: the amended statement evaluated on a concrete timed-out
deployment whose rollback stabilizes. -/
theorem c2_stable_timeout_witness :
    (runDeploy rollbackOkWorld initialState).outcome = Outcome.ROLLED_BACK
    ∧ (runDeploy rollbackOkWorld initialState).state.liveRevision = "R1" :=
  c2_stable_timeout_rolls_back_to_previous rollbackOkWorld initialState "R1" "R2"
    (by decide) (by decide) rfl (by decide) (by decide) rfl (by decide)
    (by decide) (by decide) (by decide) (by decide)

/-- C3: whenever prerequisite validation fails or revision registration
fails, the run ends ABORTED_BEFORE_MUTATION with no update-service call
recorded, the live revision unchanged, and no rollback attempted. -/
theorem c3_pre_mutation_failure_changes_nothing (w : World) (s0 : PlatformState)
    (h : validate_prerequisites w = false
      ∨ (register_task_definition w s0).1 = none) :
    (runDeploy w s0).outcome = Outcome.ABORTED_BEFORE_MUTATION
    ∧ (runDeploy w s0).state.updateCalls = s0.updateCalls
    ∧ (runDeploy w s0).state.liveRevision = s0.liveRevision
    ∧ (runDeploy w s0).rollbackResult = none := by
  rcases h with hv | hr
  · simp [runDeploy, hv]
  · cases hv : validate_prerequisites w
    · simp [runDeploy, hv]
    · cases hd : w.describeServicesOk
      · simp [runDeploy, hv, hd]
      · have hre := register_task_definition_fst_none w s0 hr
        simp [runDeploy, hv, hd, hre]

/-- C3 witness: the statement evaluated on a run whose task-definition
template file is missing. -/
theorem c3_pre_mutation_witness :
    (validate_prerequisites noTaskDefFileWorld = false
      ∨ (register_task_definition noTaskDefFileWorld initialState).1 = none)
    ∧ ((runDeploy noTaskDefFileWorld initialState).outcome
          = Outcome.ABORTED_BEFORE_MUTATION
      ∧ (runDeploy noTaskDefFileWorld initialState).state.updateCalls
          = initialState.updateCalls
      ∧ (runDeploy noTaskDefFileWorld initialState).state.liveRevision
          = initialState.liveRevision
      ∧ (runDeploy noTaskDefFileWorld initialState).rollbackResult = none) :=
  ⟨Or.inl (by decide),
   c3_pre_mutation_failure_changes_nothing noTaskDefFileWorld initialState
     (Or.inl (by decide))⟩

/-- C4: a deploy.sh run exits 0 exactly when its outcome is SUCCEEDED; every
other terminal outcome exits nonzero. -/
theorem c4_exit_zero_iff_succeeded (w : World) (s0 : PlatformState) :
    (runDeploy w s0).exitCode = 0 ↔ (runDeploy w s0).outcome = Outcome.SUCCEEDED := by
  unfold runDeploy
  split
  · simp
  · split
    · simp
    · split
      · simp
      · split
        · simp
        · split
          · simp
          · dsimp only
            split <;> simp

/-- In a runDeploy run, the recorded rollback result determines the outcome:
no rollback, a stabilized rollback ending ROLLED_BACK, or a failed rollback
(no target, rejected update, or failed stabilization) ending
ROLLBACK_FAILED. -/
theorem runDeploy_rollbackResult_outcome (w : World) (s0 : PlatformState) :
    (runDeploy w s0).rollbackResult = none
    ∨ ((runDeploy w s0).rollbackResult = some RollbackResult.stabilized
        ∧ (runDeploy w s0).outcome = Outcome.ROLLED_BACK)
    ∨ (((runDeploy w s0).rollbackResult = some RollbackResult.noTarget
        ∨ (runDeploy w s0).rollbackResult = some RollbackResult.updateRejected
        ∨ (runDeploy w s0).rollbackResult = some RollbackResult.failedToStabilize)
        ∧ (runDeploy w s0).outcome = Outcome.ROLLBACK_FAILED) := by
  unfold runDeploy
  split
  · simp
  · split
    · simp
    · split
      · simp
      · split
        · simp
        · split
          · simp
          · dsimp only
            split <;> simp

/-- C5: a rollback only ever targets the revision read by
get_current_task_definition before any mutating call of the attempt: every
update-service call tagged as issued from rollback carries exactly that
revision, and when that revision is absent the run either never invokes
rollback or reports the no-target failure, with no rollback-tagged call
issued. -/
theorem c5_rollback_targets_observed_revision (w : World) (s0 : PlatformState)
    (h0 : s0.updateCalls = []) :
    (∀ c ∈ (runDeploy w s0).state.updateCalls,
        c.viaRollback = true →
        c.revision = get_current_task_definition w.describeOutput)
    ∧ (get_current_task_definition w.describeOutput = "" →
        ((runDeploy w s0).rollbackResult = none
          ∨ (runDeploy w s0).rollbackResult = some RollbackResult.noTarget)
        ∧ ∀ c ∈ (runDeploy w s0).state.updateCalls, c.viaRollback = false) := by
  unfold runDeploy
  split
  · simp [h0]
  · split
    · simp [h0]
    · split
      · rename_i s1 heq
        have hc1 : s1.updateCalls = [] := by
          have hfr := (register_task_definition_frame w s0).1
          rw [heq] at hfr
          simpa [h0] using hfr
        simp [hc1]
      · rename_i newDef s1 heq
        have hc1 : s1.updateCalls = [] := by
          have hfr := (register_task_definition_frame w s0).1
          rw [heq] at hfr
          simpa [h0] using hfr
        dsimp only
        split
        · simp [update_service, updateServiceCall, hc1]
        · split
          · simp [update_service, updateServiceCall, hc1]
          · split
            · rename_i s3 heq2
              have hcur : get_current_task_definition w.describeOutput = "" :=
                (rollback_noTarget_iff w _ _).1 (by rw [heq2])
              rw [hcur, rollback_empty_target] at heq2
              have hs3 : update_service w newDef s1 = s3 := congrArg Prod.snd heq2
              simp [← hs3, update_service, updateServiceCall, hc1, hcur]
            · rename_i s3 heq2
              have hcur : get_current_task_definition w.describeOutput ≠ "" := by
                intro hce
                rw [hce, rollback_empty_target] at heq2
                simp at heq2
              have hcall : s3.updateCalls
                  = (update_service w newDef s1).updateCalls
                    ++ [⟨get_current_task_definition w.describeOutput, true⟩] := by
                have h4 := rollback_calls w
                  (get_current_task_definition w.describeOutput)
                  (update_service w newDef s1) hcur
                rw [heq2] at h4
                exact h4
              simp [hcall, update_service, updateServiceCall, hc1, hcur]
            · rename_i s3 heq2
              have hcur : get_current_task_definition w.describeOutput ≠ "" := by
                intro hce
                rw [hce, rollback_empty_target] at heq2
                simp at heq2
              have hcall : s3.updateCalls
                  = (update_service w newDef s1).updateCalls
                    ++ [⟨get_current_task_definition w.describeOutput, true⟩] := by
                have h4 := rollback_calls w
                  (get_current_task_definition w.describeOutput)
                  (update_service w newDef s1) hcur
                rw [heq2] at h4
                exact h4
              simp [hcall, update_service, updateServiceCall, hc1, hcur]
            · rename_i s3 heq2
              have hcur : get_current_task_definition w.describeOutput ≠ "" := by
                intro hce
                rw [hce, rollback_empty_target] at heq2
                simp at heq2
              have hcall : s3.updateCalls
                  = (update_service w newDef s1).updateCalls
                    ++ [⟨get_current_task_definition w.describeOutput, true⟩] := by
                have h4 := rollback_calls w
                  (get_current_task_definition w.describeOutput)
                  (update_service w newDef s1) hcur
                rw [heq2] at h4
                exact h4
              simp [hcall, update_service, updateServiceCall, hc1, hcur]

/-- C5 witness: the statement evaluated on a concrete timed-out deployment
whose rollback targets the previously observed revision R1. -/
theorem c5_rollback_targets_witness :
    initialState.updateCalls = []
    ∧ ((∀ c ∈ (runDeploy rollbackOkWorld initialState).state.updateCalls,
          c.viaRollback = true →
          c.revision = get_current_task_definition rollbackOkWorld.describeOutput)
      ∧ (get_current_task_definition rollbackOkWorld.describeOutput = "" →
          ((runDeploy rollbackOkWorld initialState).rollbackResult = none
            ∨ (runDeploy rollbackOkWorld initialState).rollbackResult
                = some RollbackResult.noTarget)
          ∧ ∀ c ∈ (runDeploy rollbackOkWorld initialState).state.updateCalls,
              c.viaRollback = false)) :=
  ⟨rfl, c5_rollback_targets_observed_revision rollbackOkWorld initialState rfl⟩

/-- C6: rollback invoked with an absent target fails immediately with the
distinct no-target result, touching nothing (no update-service call, no
no-op), and a run whose rollback ends in the no-target failure has outcome
ROLLBACK_FAILED. -/
theorem c6_absent_target_fails_immediately (w : World) :
    (∀ s, rollback w "" s = (RollbackResult.noTarget, s))
    ∧ ∀ s0, (runDeploy w s0).rollbackResult = some RollbackResult.noTarget →
        (runDeploy w s0).outcome = Outcome.ROLLBACK_FAILED := by
  refine ⟨fun s => rollback_empty_target w s, fun s0 h => ?_⟩
  rcases runDeploy_rollbackResult_outcome w s0 with h1 | ⟨h1, _⟩ | ⟨_, h2⟩
  · rw [h1] at h
    cases h
  · rw [h1] at h
    simp at h
  · exact h2

/-- C6 witness: a first deployment (no prior revision) whose forward wait
times out ends with the no-target rollback failure and outcome
ROLLBACK_FAILED. -/
theorem c6_absent_target_witness :
    rollback firstDeployFailWorld "" initialState
        = (RollbackResult.noTarget, initialState)
    ∧ (runDeploy firstDeployFailWorld initialState).outcome
        = Outcome.ROLLBACK_FAILED :=
  ⟨(c6_absent_target_fails_immediately firstDeployFailWorld).1 initialState,
   (c6_absent_target_fails_immediately firstDeployFailWorld).2 initialState
     (by decide)⟩

/-- C7: invoking rollback twice in sequence with the same target yields the
same final live revision as invoking it once (the embedded updateService is
idempotent for repeated calls with the same revision, as the design
assumes). -/
theorem c7_rollback_idempotent_on_revision (w : World) (target : String)
    (s : PlatformState) :
    (rollback w target (rollback w target s).2).2.liveRevision
      = (rollback w target s).2.liveRevision := by
  unfold rollback updateServiceCall
  by_cases hc : target = "" <;> cases hr : w.rollbackUpdateOk <;>
    cases hw : w.rollbackWaitStable <;> simp [hc, hr, hw]

/-- C8: registering a new task definition never mutates the live service:
the live revision pointer is unchanged and no update-service call is
recorded, whatever the registration result. -/
theorem c8_register_never_mutates_live_service (w : World) (s : PlatformState) :
    (register_task_definition w s).2.liveRevision = s.liveRevision
    ∧ (register_task_definition w s).2.updateCalls = s.updateCalls :=
  ⟨(register_task_definition_frame w s).2, (register_task_definition_frame w s).1⟩

/-- C9 (as stated) is refuted: on a response with status 200 whose JSON body
has no status field at all, healthcheck.js still exits 0, while the stated
contract calls such a response unhealthy. -/
theorem c9_counterexample_body_ignored :
    healthcheckExit (HttpResult.response ⟨200, none⟩) = 0
    ∧ claimHealthyC9 (HttpResult.response ⟨200, none⟩) = false := by
  decide

/-- C9 (amended): healthcheck.js reports healthy (exit 0) exactly when the
response has HTTP status 200; the response body is never inspected, and
request errors and timeouts are unhealthy (exit 1). -/
theorem c9_healthy_iff_status_200 :
    (∀ r, healthcheckExit r = 0 ↔ isStatus200 r = true)
    ∧ ∀ c b1 b2, healthcheckExit (HttpResult.response ⟨c, b1⟩)
        = healthcheckExit (HttpResult.response ⟨c, b2⟩) := by
  constructor
  · intro r
    cases r with
    | response res =>
        by_cases h : res.statusCode = 200 <;>
          simp [healthcheckExit, isStatus200, beq_iff_eq, h]
    | connectionError => simp [healthcheckExit, isStatus200]
    | timedOut => simp [healthcheckExit, isStatus200]
  · intro c b1 b2
    simp [healthcheckExit]

/-- C10: when the platform reports no running tasks after stabilization, the
health-check step returns failure rather than vacuously passing over zero
instances. -/
theorem c10_no_running_tasks_fails (w : World) (h : w.taskArns = []) :
    run_health_checks w = false := by
  simp [run_health_checks, h]

/-- C10 witness: the statement evaluated on a stabilized run with an empty
task list. -/
theorem c10_no_running_tasks_witness :
    noTasksWorld.taskArns = [] ∧ run_health_checks noTasksWorld = false :=
  ⟨rfl, c10_no_running_tasks_fails noTasksWorld rfl⟩

end QuickServe
